import Mathlib

/-!
Shallow embedding of `transcription_core.py` from the whisper-voice-transcription
repository: timestamp formatting, the five format writers, device selection,
format normalization, model loading with device fallback, and the
`transcribe_audio_core` orchestrator.  Python floats are idealized as exact
rationals; the process environment, filesystem and the external whisper model
are passed in explicitly as an `Env` record.
-/

/-- The whitespace characters recognized by Python `str.strip()` (ASCII range). -/
def pyIsSpace (c : Char) : Bool :=
  c = ' ' || c = '\t' || c = '\n' || c = '\r' || c = '\x0b' || c = '\x0c'

/-- Python `str.strip()`: remove leading and trailing whitespace. -/
def pyStrip (s : String) : String :=
  String.mk (List.rdropWhile pyIsSpace (s.toList.dropWhile pyIsSpace))

/-- Split a character list at every occurrence of `sep`, accumulator-style
(models Python `str.split(sep)` for a one-character separator). -/
def splitCharAux (sep : Char) : List Char → List Char → List (List Char)
  | [], acc => [acc.reverse]
  | c :: cs, acc =>
      if c = sep then acc.reverse :: splitCharAux sep cs []
      else splitCharAux sep cs (c :: acc)

/-- Python `s.split(sep)` for a one-character separator. -/
def pySplit (sep : Char) (s : String) : List String :=
  (splitCharAux sep s.toList []).map String.mk

/-- Python `str.lower()` (ASCII range, which covers every token the code compares). -/
def pyLower (s : String) : String :=
  String.mk (s.toList.map Char.toLower)

/-- Zero-pad a digit string on the left to width `w`. -/
def zeroPad (w : Nat) (s : String) : String :=
  String.mk (List.replicate (w - s.length) '0') ++ s

/-- Python `f"{n:0w}"`: zero-pad an integer to width `w` (sign kept in front). -/
def pyPadInt (w : Nat) (n : Int) : String :=
  if n < 0 then "-" ++ zeroPad (w - 1) (toString (-n).toNat)
  else zeroPad w (toString n.toNat)

/-- Python `int()` on a real value: truncation toward zero. -/
def pyInt (q : ℚ) : Int :=
  if 0 ≤ q then ⌊q⌋ else -⌊-q⌋

/-- Python `a // b` on floats (floor division), idealized over ℚ. -/
def pyFloorDiv (a b : ℚ) : ℚ := (⌊a / b⌋ : ℚ)

/-- Python `a % b` on floats for `b > 0`, idealized over ℚ. -/
def pyMod (a b : ℚ) : ℚ := a - b * (⌊a / b⌋ : ℚ)

/-- Does `needle` occur at the head of the second list? -/
def leadMatch : List Char → List Char → Bool
  | [], _ => true
  | _ :: _, [] => false
  | a :: as, b :: bs => a == b && leadMatch as bs

/-- Python `needle in hay` substring test on character lists. -/
def occursIn (needle : List Char) : List Char → Bool
  | [] => leadMatch needle []
  | c :: cs => leadMatch needle (c :: cs) || occursIn needle cs

/-- Python `needle in hay` on strings. -/
def pyContains (hay needle : String) : Bool :=
  occursIn needle.toList hay.toList

/-- `SUPPORTED_FORMATS` from transcription_core.py line 13. -/
def SUPPORTED_FORMATS : List String := ["srt", "tsv", "txt", "vtt", "json"]

/-- One transcript segment, as produced by the external model: `seg["start"]`,
`seg["end"]` (named `stop` here because `end` is a Lean keyword) and `seg["text"]`.
Floats idealized as exact rationals. -/
structure Segment where
  start : ℚ
  stop : ℚ
  text : String
deriving Repr, DecidableEq

/-- A segment with its text stripped (what a trimming writer effectively consumes). -/
def stripSeg (seg : Segment) : Segment :=
  { seg with text := pyStrip seg.text }

/-- `format_timestamp` from transcription_core.py lines 46-54. -/
def format_timestamp (seconds : ℚ) (vtt : Bool) : String :=
  let hours := pyInt (pyFloorDiv seconds 3600)
  let minutes := pyInt (pyFloorDiv (pyMod seconds 3600) 60)
  let secs := pyInt (pyMod seconds 60)
  let millis := pyInt ((seconds - (pyInt seconds : ℚ)) * 1000)
  if vtt then
    pyPadInt 2 hours ++ ":" ++ pyPadInt 2 minutes ++ ":" ++ pyPadInt 2 secs ++ "." ++ pyPadInt 3 millis
  else
    pyPadInt 2 hours ++ ":" ++ pyPadInt 2 minutes ++ ":" ++ pyPadInt 2 secs ++ "," ++ pyPadInt 3 millis

/-- The successive SRT blocks written by the loop in `save_srt`
(transcription_core.py lines 15-20), starting at index `i`. -/
def srtBlocks (i : Nat) : List Segment → String
  | [] => ""
  | seg :: rest =>
      toString i ++ "\n" ++ format_timestamp seg.start false ++ " --> " ++
        format_timestamp seg.stop false ++ "\n" ++ pyStrip seg.text ++ "\n\n" ++
        srtBlocks (i + 1) rest

/-- The full file content written by `save_srt` (`enumerate(segments, 1)`). -/
def save_srt_string (segments : List Segment) : String :=
  srtBlocks 1 segments

/-- Rendering of a Python float by `str()`, idealized on exact rationals:
integer part, then the fractional digits (Python never needs more than 17),
with `".0"` when the value is integral. -/
def fracDigits : Nat → ℚ → List Char
  | 0, _ => []
  | n + 1, q =>
      let q10 := q * 10
      Char.ofNat (48 + (⌊q10⌋).toNat) :: fracDigits n (q10 - (⌊q10⌋ : ℚ))

/-- Drop trailing zero digits. -/
def dropTrailZeros (l : List Char) : List Char :=
  List.rdropWhile (fun c => c = '0') l

/-- Decimal rendering of a Python float value (see `fracDigits`). -/
def pyFloatStr (q : ℚ) : String :=
  let sign := if q < 0 then "-" else ""
  let ip := (⌊|q|⌋).toNat
  let fr := dropTrailZeros (fracDigits 17 (|q| - (⌊|q|⌋ : ℚ)))
  if fr = [] then sign ++ toString ip ++ ".0"
  else sign ++ toString ip ++ "." ++ String.mk fr

/-- The data rows written by the loop in `save_tsv` (lines 22-26). -/
def tsvRows : List Segment → String
  | [] => ""
  | seg :: rest =>
      pyFloatStr seg.start ++ "\t" ++ pyFloatStr seg.stop ++ "\t\t" ++
        pyStrip seg.text ++ "\n" ++ tsvRows rest

/-- The full file content written by `save_tsv`: header row, then one row per segment. -/
def save_tsv_string (segments : List Segment) : String :=
  "start\tend\tspeaker\ttext\n" ++ tsvRows segments

/-- The full file content written by `save_txt` (lines 28-31). -/
def save_txt_string : List Segment → String
  | [] => ""
  | seg :: rest => pyStrip seg.text ++ "\n" ++ save_txt_string rest

/-- The cue blocks written by the loop in `save_vtt` (lines 33-39). -/
def vttBlocks : List Segment → String
  | [] => ""
  | seg :: rest =>
      format_timestamp seg.start true ++ " --> " ++ format_timestamp seg.stop true ++
        "\n" ++ pyStrip seg.text ++ "\n\n" ++ vttBlocks rest

/-- The full file content written by `save_vtt`: `WEBVTT` header then cue blocks. -/
def save_vtt_string (segments : List Segment) : String :=
  "WEBVTT\n\n" ++ vttBlocks segments

/-- One hexadecimal digit (lowercase), as used in JSON `\u00XX` escapes. -/
def hexDigit (n : Nat) : Char :=
  if n < 10 then Char.ofNat (48 + n) else Char.ofNat (87 + n)

/-- JSON escaping of one character, as performed by Python `json.dump` with
`ensure_ascii=False`. -/
def jsonEscapeChar (c : Char) : String :=
  if c = '\\' then "\\\\"
  else if c = '"' then "\\\""
  else if c = '\n' then "\\n"
  else if c = '\t' then "\\t"
  else if c = '\r' then "\\r"
  else if c = '\x08' then "\\b"
  else if c = '\x0c' then "\\f"
  else if c.toNat < 32 then
    "\\u00" ++ String.mk [hexDigit (c.toNat / 16), hexDigit (c.toNat % 16)]
  else String.mk [c]

/-- JSON escaping of a string value. -/
def jsonEscape (s : String) : String :=
  String.join (s.toList.map jsonEscapeChar)

/-- One segment serialized as a JSON object by `json.dump(segments, f,
ensure_ascii=False, indent=2)` (lines 41-44), at one level of indentation. -/
def jsonSegmentObj (seg : Segment) : String :=
  "  \x7b\n    \"start\": " ++ pyFloatStr seg.start ++ ",\n    \"end\": " ++
    pyFloatStr seg.stop ++ ",\n    \"text\": \"" ++ jsonEscape seg.text ++ "\"\n  \x7d"

/-- The comma-separated object items of the JSON array. -/
def jsonItems : List Segment → String
  | [] => ""
  | [seg] => jsonSegmentObj seg
  | seg :: rest => jsonSegmentObj seg ++ ",\n" ++ jsonItems rest

/-- The full file content written by `save_json` (Python `json.dump` with
`indent=2` renders the empty list as `[]`). -/
def save_json_string : List Segment → String
  | [] => "[]"
  | seg :: rest => "[\n" ++ jsonItems (seg :: rest) ++ "\n]"

/-- A filesystem: a map from paths to file contents. -/
def FS : Type := String → Option String

/-- `save_json(segments, out_path)`: opening `out_path` in mode `"w"` truncates
it, then the serialized segments are written. -/
def save_json (segments : List Segment) (out_path : String) (fs : FS) : FS :=
  fun p => if p = out_path then some (save_json_string segments) else fs p

/-- `get_device` from transcription_core.py lines 56-81.  `preferred_device`
may be `None`; CUDA availability is the hardware state queried at call time. -/
def get_device (preferred_device : Option String) (cuda_available : Bool) : String :=
  match preferred_device with
  | some p =>
      if p ≠ "" ∧ pyLower p ≠ "auto" then
        if pyLower p = "cuda" ∧ cuda_available then "cuda"
        else if pyLower p = "cpu" then "cpu"
        else "cpu"
      else
        if cuda_available then "cuda" else "cpu"
  | none => if cuda_available then "cuda" else "cpu"

/-- The `formats` argument of `transcribe_audio_core` may be a comma-separated
string or an already-split list. -/
inductive FormatsArg where
  | str (s : String)
  | list (l : List String)
deriving Repr, DecidableEq

/-- The token list the filter at line 153 runs over: a string argument is first
split on commas and stripped (line 152); a list argument is taken as is. -/
def formatTokens : FormatsArg → List String
  | .str s => (pySplit ',' s).map pyStrip
  | .list l => l

/-- Format normalization, transcription_core.py lines 150-153:
`formats = [f.strip() for f in formats if f.strip() in SUPPORTED_FORMATS]`. -/
def normalizeFormats (formats : FormatsArg) : List String :=
  ((formatTokens formats).filter (fun f => pyStrip f ∈ SUPPORTED_FORMATS)).map pyStrip

/-- Model loading with one-time CUDA-to-CPU fallback, transcription_core.py
lines 166-176.  `load` is `whisper.load_model(model_name, device=·)`; the
result carries the device actually used. -/
def loadWithFallback (load : String → Except String Unit) (device : String) :
    Except String String :=
  match load device with
  | .ok _ => .ok device
  | .error e =>
      if device = "cuda" then
        match load "cpu" with
        | .ok _ => .ok "cpu"
        | .error e2 => .error e2
      else .error e

/-- The platform-specific FFmpeg remediation message built by
`check_ffmpeg_availability` (lines 83-116). -/
def ffmpegErrorMsg (system : String) : String :=
  if system = "Windows" then
    "❌ FFmpeg not found. This is required for audio processing.\n\n🔧 Windows Installation Options:\n1. Download FFmpeg from: https://ffmpeg.org/download.html\n2. Extract and add to PATH, or\n3. Use Chocolatey: choco install ffmpeg\n4. Use Winget: winget install FFmpeg\n\nAfter installation, restart your terminal/command prompt."
  else if system = "Darwin" then
    "❌ FFmpeg not found. Install with: brew install ffmpeg"
  else
    "❌ FFmpeg not found. Install with: sudo apt install ffmpeg"

/-- The result dictionary of `model.transcribe`: its `"segments"` and
`"language"` entries. -/
structure TranscribeResult where
  segments : List Segment
  language : Option String
deriving Repr, DecidableEq

/-- The distinct exceptions `transcribe_audio_core` can raise.
`dependencyUnavailable` is the RuntimeError re-raised at lines 134-137 when the
FFmpeg check fails; `noValidFormats` the ValueError at line 156;
`audioNotFound` the FileNotFoundError at line 160; `loadFailed` a model-load
failure propagated at lines 174-176; `transcribeDependency` the RuntimeError at
lines 186-191 wrapping an FFmpeg-looking inference failure; `transcribeFailed`
any other inference failure re-raised unchanged at line 194. -/
inductive CoreError where
  | dependencyUnavailable (msg : String)
  | noValidFormats
  | audioNotFound (path : String)
  | loadFailed (e : String)
  | transcribeDependency (e : String)
  | transcribeFailed (e : String)
deriving Repr, DecidableEq

/-- The ambient state `transcribe_audio_core` reads: FFmpeg availability, the
platform name, the process environment, filesystem existence, CUDA
availability, the external model's load and transcribe behaviour, and the
clock reading used to name the output directory. -/
structure Env where
  ffmpegAvailable : Bool
  platform : String
  getenv : String → Option String
  pathExists : String → Bool
  cudaAvailable : Bool
  loadModel : String → String → Except String Unit
  transcribe : String → Option String → String → Except String TranscribeResult
  timestamp : String

/-- The dictionary returned by `transcribe_audio_core` (lines 224-231). -/
structure JobResult where
  output_dir : String
  files : List String
  segments : List Segment
  language : Option String
  model : String
  device : String
deriving Repr, DecidableEq

/-- Python `x or d` for an optional string `x`: `None` and `""` are falsy. -/
def pyOrStr (x : Option String) (d : String) : String :=
  match x with
  | some s => if s = "" then d else s
  | none => d

/-- Python `x or d` where the default is itself optional (`os.getenv` with no
fallback value). -/
def pyOrOptStr (x : Option String) (d : Option String) : Option String :=
  match x with
  | some s => if s = "" then d else some s
  | none => d

/-- Language resolution, lines 141 and 146-148: default from the environment,
then `None`, `""`, `"auto"` and `"Auto Detect"` all mean auto-detect. -/
def resolvedLanguage (env : Env) (language : Option String) : Option String :=
  match pyOrOptStr language (env.getenv "WHISPER_LANGUAGE") with
  | none => none
  | some s => if s = "" ∨ s = "auto" ∨ s = "Auto Detect" then none else some s

/-- The process-wide default format list, line 143:
`os.getenv("WHISPER_FORMATS", "txt").split(",")`. -/
def envFormatsDefault (env : Env) : FormatsArg :=
  .list (pySplit ',' ((env.getenv "WHISPER_FORMATS").getD "txt"))

/-- `formats = formats or os.getenv("WHISPER_FORMATS", "txt").split(",")`
(line 143): `None`, `""` and `[]` are falsy and are replaced by the default. -/
def resolvedFormatsArg (env : Env) (formats : Option FormatsArg) : FormatsArg :=
  match formats with
  | some (.str s) => if s = "" then envFormatsDefault env else .str s
  | some (.list l) => if l = [] then envFormatsDefault env else .list l
  | none => envFormatsDefault env

/-- `os.path.basename` for POSIX paths: the part after the last slash. -/
def basename (p : String) : String :=
  (pySplit '/' p).getLastD ""

/-- The stem of `os.path.splitext(name)`: everything before the last dot,
provided some earlier character of the name is not a dot (so dotfiles like
`.bashrc` keep their full name). -/
def splitextStem (name : String) : String :=
  let cs := name.toList
  let dotIdxs := (List.range cs.length).filter fun i =>
    cs.getD i ' ' == '.' && (cs.take i).any (fun c => c != '.')
  match dotIdxs.getLast? with
  | some i => String.mk (cs.take i)
  | none => name

/-- The error-text fragments (line 185) that make a transcription failure be
reported as a missing-FFmpeg problem. -/
def ffmpegKeywords : List String := ["ffmpeg", "file specified", "winerror 2", "cannot find"]

/-- `transcribe_audio_core` from transcription_core.py lines 118-231, with the
writers' on-disk side effects omitted (the returned `files` list records the
paths they are given, in loop order).  `os.path.join` is modeled for POSIX
separators. -/
def transcribe_audio_core (env : Env) (audio_path : String)
    (model_name language task : Option String)
    (formats : Option FormatsArg) (device : Option String) :
    Except CoreError JobResult :=
  if ¬ env.ffmpegAvailable then
    .error (.dependencyUnavailable (ffmpegErrorMsg env.platform))
  else
    let model_name := pyOrStr model_name ((env.getenv "WHISPER_MODEL").getD "small.en")
    let language := resolvedLanguage env language
    let task := pyOrStr task ((env.getenv "WHISPER_TASK").getD "transcribe")
    let formatsN := normalizeFormats (resolvedFormatsArg env formats)
    let device0 := pyOrStr device ((env.getenv "WHISPER_DEVICE").getD "auto")
    if formatsN = [] then .error .noValidFormats
    else if ¬ env.pathExists audio_path then .error (.audioNotFound audio_path)
    else
      let dev := get_device (some device0) env.cudaAvailable
      match loadWithFallback (env.loadModel model_name) dev with
      | .error e => .error (.loadFailed e)
      | .ok dev2 =>
          match env.transcribe audio_path language task with
          | .error e =>
              if ffmpegKeywords.any (fun kw => pyContains (pyLower e) kw) then
                .error (.transcribeDependency e)
              else
                .error (.transcribeFailed e)
          | .ok tr =>
              let output_dir := "outputs/" ++ env.timestamp
              let base := splitextStem (basename audio_path)
              let files := formatsN.map (fun fmt => output_dir ++ "/" ++ base ++ "." ++ fmt)
              .ok { output_dir := output_dir, files := files, segments := tr.segments,
                    language := tr.language, model := model_name, device := dev2 }

/-! ### Arithmetic helper lemmas -/

theorem pyInt_of_nonneg {q : ℚ} (h : 0 ≤ q) : pyInt q = ⌊q⌋ := by
  simp [pyInt, h]

theorem pyMod_nonneg (a b : ℚ) (hb : 0 < b) : 0 ≤ pyMod a b := by
  have h1 : (⌊a / b⌋ : ℚ) ≤ a / b := Int.floor_le _
  have h2 : b * (⌊a / b⌋ : ℚ) ≤ b * (a / b) := mul_le_mul_of_nonneg_left h1 (le_of_lt hb)
  have h3 : b * (a / b) = a := by field_simp
  simp only [pyMod]
  linarith

theorem floor_cast_nonneg {q : ℚ} (h : 0 ≤ q) : (0 : ℚ) ≤ (⌊q⌋ : ℚ) := by
  exact_mod_cast Int.le_floor.mpr (by exact_mod_cast h)

/-- Evaluation of `format_timestamp` on a non-negative input: the four clock
fields are the floors the specification describes, and the two variants differ
only in the separator. -/
theorem format_timestamp_eq (s : ℚ) (h : 0 ≤ s) :
    format_timestamp s false =
      pyPadInt 2 ⌊s / 3600⌋ ++ ":" ++
        pyPadInt 2 ⌊(s - 3600 * (⌊s / 3600⌋ : ℚ)) / 60⌋ ++ ":" ++
        pyPadInt 2 ⌊s - 60 * (⌊s / 60⌋ : ℚ)⌋ ++ "," ++
        pyPadInt 3 ⌊(s - (⌊s⌋ : ℚ)) * 1000⌋ ∧
    format_timestamp s true =
      pyPadInt 2 ⌊s / 3600⌋ ++ ":" ++
        pyPadInt 2 ⌊(s - 3600 * (⌊s / 3600⌋ : ℚ)) / 60⌋ ++ ":" ++
        pyPadInt 2 ⌊s - 60 * (⌊s / 60⌋ : ℚ)⌋ ++ "." ++
        pyPadInt 3 ⌊(s - (⌊s⌋ : ℚ)) * 1000⌋ := by
  have hdiv : (0 : ℚ) ≤ s / 3600 := by positivity
  have h1 : pyInt (pyFloorDiv s 3600) = ⌊s / 3600⌋ := by
    rw [pyFloorDiv, pyInt_of_nonneg (floor_cast_nonneg hdiv), Int.floor_intCast]
  have hm36 : 0 ≤ pyMod s 3600 := pyMod_nonneg s 3600 (by norm_num)
  have hdiv2 : (0 : ℚ) ≤ pyMod s 3600 / 60 := by positivity
  have h2 : pyInt (pyFloorDiv (pyMod s 3600) 60) = ⌊(s - 3600 * (⌊s / 3600⌋ : ℚ)) / 60⌋ := by
    rw [pyFloorDiv, pyInt_of_nonneg (floor_cast_nonneg hdiv2), Int.floor_intCast]
    rfl
  have hm60 : 0 ≤ pyMod s 60 := pyMod_nonneg s 60 (by norm_num)
  have h3 : pyInt (pyMod s 60) = ⌊s - 60 * (⌊s / 60⌋ : ℚ)⌋ := by
    rw [pyInt_of_nonneg hm60]
    rfl
  have hfr : (0 : ℚ) ≤ (s - (⌊s⌋ : ℚ)) * 1000 :=
    mul_nonneg (sub_nonneg.mpr (Int.floor_le s)) (by norm_num)
  have h4 : pyInt ((s - (pyInt s : ℚ)) * 1000) = ⌊(s - (⌊s⌋ : ℚ)) * 1000⌋ := by
    rw [pyInt_of_nonneg h, pyInt_of_nonneg hfr]
  constructor <;>
    simp only [format_timestamp, h1, h2, h3, h4, Bool.false_eq_true, if_false, if_true]

/-- `format_timestamp` at a non-negative input whose four clock fields are the
given integers. -/
theorem format_timestamp_eq_of (s : ℚ) (h : 0 ≤ s) (hh mm ss ms : ℤ)
    (e1 : ⌊s / 3600⌋ = hh) (e2 : ⌊(s - 3600 * (hh : ℚ)) / 60⌋ = mm)
    (e3 : ⌊s / 60⌋ = 60 * hh + mm) (e4 : ⌊s - 60 * ((60 * hh + mm : ℤ) : ℚ)⌋ = ss)
    (e5 : ⌊(s - (⌊s⌋ : ℚ)) * 1000⌋ = ms) :
    format_timestamp s false =
      pyPadInt 2 hh ++ ":" ++ pyPadInt 2 mm ++ ":" ++ pyPadInt 2 ss ++ "," ++ pyPadInt 3 ms ∧
    format_timestamp s true =
      pyPadInt 2 hh ++ ":" ++ pyPadInt 2 mm ++ ":" ++ pyPadInt 2 ss ++ "." ++ pyPadInt 3 ms := by
  have := format_timestamp_eq s h
  rw [e1, e3] at this
  rw [e2, e4, e5] at this
  exact this

/-! ### String helper lemmas -/

theorem pyStrip_pyStrip (s : String) : pyStrip (pyStrip s) = pyStrip s := by
  show String.mk (List.rdropWhile pyIsSpace
      ((List.rdropWhile pyIsSpace (s.toList.dropWhile pyIsSpace)).dropWhile pyIsSpace)) =
    String.mk (List.rdropWhile pyIsSpace (s.toList.dropWhile pyIsSpace))
  have hz : (List.rdropWhile pyIsSpace (s.toList.dropWhile pyIsSpace)).dropWhile pyIsSpace =
      List.rdropWhile pyIsSpace (s.toList.dropWhile pyIsSpace) := by
    obtain ⟨t, ht⟩ := List.rdropWhile_prefix pyIsSpace (s.toList.dropWhile pyIsSpace)
    cases hzc : List.rdropWhile pyIsSpace (s.toList.dropWhile pyIsSpace) with
    | nil => rfl
    | cons c cs =>
        have hy : (s.toList.dropWhile pyIsSpace).dropWhile pyIsSpace =
            s.toList.dropWhile pyIsSpace := List.dropWhile_idempotent pyIsSpace s.toList
        rw [hzc] at ht
        rw [← ht] at hy
        by_cases hc : pyIsSpace c = true
        · exfalso
          rw [List.cons_append, List.dropWhile_cons_of_pos hc] at hy
          have h1 := congrArg List.length hy
          have h2 := (List.dropWhile_sublist (l := cs ++ t) pyIsSpace).length_le
          simp only [List.length_cons] at h1
          omega
        · exact List.dropWhile_cons_of_neg hc
  rw [hz, List.rdropWhile_idempotent]

theorem srtBlocks_map_strip (segs : List Segment) (i : Nat) :
    srtBlocks i (segs.map stripSeg) = srtBlocks i segs := by
  induction segs generalizing i with
  | nil => rfl
  | cons seg rest ih => simp [srtBlocks, stripSeg, pyStrip_pyStrip, ih]

theorem tsvRows_map_strip (segs : List Segment) :
    tsvRows (segs.map stripSeg) = tsvRows segs := by
  induction segs with
  | nil => rfl
  | cons seg rest ih => simp [tsvRows, stripSeg, pyStrip_pyStrip, ih]

theorem txt_map_strip (segs : List Segment) :
    save_txt_string (segs.map stripSeg) = save_txt_string segs := by
  induction segs with
  | nil => rfl
  | cons seg rest ih => simp [save_txt_string, stripSeg, pyStrip_pyStrip, ih]

theorem vttBlocks_map_strip (segs : List Segment) :
    vttBlocks (segs.map stripSeg) = vttBlocks segs := by
  induction segs with
  | nil => rfl
  | cons seg rest ih => simp [vttBlocks, stripSeg, pyStrip_pyStrip, ih]

theorem fracDigits_zero (n : Nat) : fracDigits n 0 = List.replicate n '0' := by
  induction n with
  | zero => rfl
  | succ n ih =>
      show Char.ofNat (48 + (⌊(0 : ℚ) * 10⌋).toNat) ::
          fracDigits n ((0 : ℚ) * 10 - (⌊(0 : ℚ) * 10⌋ : ℚ)) = _
      rw [zero_mul, Int.floor_zero, Int.cast_zero, sub_zero, ih]
      rfl

theorem pyFloatStr_natCast (n : ℕ) : pyFloatStr (n : ℚ) = toString n ++ ".0" := by
  have hdrop : dropTrailZeros (List.replicate 17 '0') = [] := by
    apply List.rdropWhile_eq_nil_iff.mpr
    intro x hx
    simp [List.eq_of_mem_replicate hx]
  show (if dropTrailZeros (fracDigits 17 (|(n : ℚ)| - (⌊|(n : ℚ)|⌋ : ℚ))) = [] then
      (if (n : ℚ) < 0 then "-" else "") ++ toString (⌊|(n : ℚ)|⌋).toNat ++ ".0"
    else
      (if (n : ℚ) < 0 then "-" else "") ++ toString (⌊|(n : ℚ)|⌋).toNat ++ "." ++
        String.mk (dropTrailZeros (fracDigits 17 (|(n : ℚ)| - (⌊|(n : ℚ)|⌋ : ℚ))))) =
    toString n ++ ".0"
  rw [abs_of_nonneg (by positivity : (0 : ℚ) ≤ (n : ℚ)), Int.floor_natCast,
    (by push_cast; ring : (n : ℚ) - ((n : ℤ) : ℚ) = 0), fracDigits_zero, hdrop,
    if_pos rfl, if_neg (not_lt.mpr (by positivity : (0 : ℚ) ≤ (n : ℚ))), Int.toNat_natCast]
  rfl

theorem pyFloatStr_zero : pyFloatStr (0 : ℚ) = "0.0" := by
  have h := pyFloatStr_natCast 0
  rw [Nat.cast_zero] at h
  rw [h]
  decide

theorem pyFloatStr_one : pyFloatStr (1 : ℚ) = "1.0" := by
  have h := pyFloatStr_natCast 1
  rw [Nat.cast_one] at h
  rw [h]
  decide

theorem save_json_string_hi :
    save_json_string [⟨0, 1, " hi "⟩] =
      "[\n  \x7b\n    \"start\": 0.0,\n    \"end\": 1.0,\n    \"text\": \" hi \"\n  \x7d\n]" := by
  have h : save_json_string [⟨0, 1, " hi "⟩] =
      "[\n" ++ ("  \x7b\n    \"start\": " ++ pyFloatStr 0 ++ ",\n    \"end\": " ++ pyFloatStr 1 ++
        ",\n    \"text\": \"" ++ jsonEscape " hi " ++ "\"\n  \x7d") ++ "\n]" := rfl
  rw [h, pyFloatStr_zero, pyFloatStr_one]
  decide

theorem save_json_string_hi_stripped :
    save_json_string ([⟨0, 1, " hi "⟩].map stripSeg) =
      "[\n  \x7b\n    \"start\": 0.0,\n    \"end\": 1.0,\n    \"text\": \"hi\"\n  \x7d\n]" := by
  have h : save_json_string ([⟨0, 1, " hi "⟩].map stripSeg) =
      "[\n" ++ ("  \x7b\n    \"start\": " ++ pyFloatStr 0 ++ ",\n    \"end\": " ++ pyFloatStr 1 ++
        ",\n    \"text\": \"" ++ jsonEscape (pyStrip " hi ") ++ "\"\n  \x7d") ++ "\n]" := rfl
  rw [h, pyFloatStr_zero, pyFloatStr_one]
  decide

theorem format_timestamp_zero : format_timestamp 0 false = "00:00:00,000" := by
  rw [(format_timestamp_eq_of 0 le_rfl 0 0 0 0 (by norm_num) (by norm_num) (by norm_num)
    (by norm_num) (by norm_num)).1]
  decide

theorem format_timestamp_three_halves : format_timestamp (3 / 2 : ℚ) false = "00:00:01,500" := by
  rw [(format_timestamp_eq_of (3 / 2) (by norm_num) 0 0 1 500 (by norm_num) (by norm_num)
    (by norm_num) (by norm_num) (by norm_num)).1]
  decide

/-! ### Witness environments -/

/-- An environment for witnesses: FFmpeg present, no variables set, every path
exists, no CUDA, loading succeeds, transcription yields one segment. -/
def envOk : Env :=
  { ffmpegAvailable := true, platform := "Linux", getenv := fun _ => none,
    pathExists := fun _ => true, cudaAvailable := false,
    loadModel := fun _ _ => .ok (),
    transcribe := fun _ _ _ => .ok ⟨[⟨0, 1, " hi "⟩], some "en"⟩,
    timestamp := "20260101_000000" }

/-- Like `envOk` but no path exists. -/
def envNoFile : Env :=
  { ffmpegAvailable := true, platform := "Linux", getenv := fun _ => none,
    pathExists := fun _ => false, cudaAvailable := false,
    loadModel := fun _ _ => .ok (),
    transcribe := fun _ _ _ => .ok ⟨[⟨0, 1, " hi "⟩], some "en"⟩,
    timestamp := "20260101_000000" }

/-- Like `envNoFile` but FFmpeg is missing. -/
def envNoFfmpeg : Env :=
  { ffmpegAvailable := false, platform := "Linux", getenv := fun _ => none,
    pathExists := fun _ => false, cudaAvailable := false,
    loadModel := fun _ _ => .ok (),
    transcribe := fun _ _ _ => .ok ⟨[⟨0, 1, " hi "⟩], some "en"⟩,
    timestamp := "20260101_000000" }

/-- Like `envOk` but with `WHISPER_FORMATS` set to an all-invalid value. -/
def envBadDefault : Env :=
  { ffmpegAvailable := true, platform := "Linux",
    getenv := fun k => if k = "WHISPER_FORMATS" then some "bogus" else none,
    pathExists := fun _ => true, cudaAvailable := false,
    loadModel := fun _ _ => .ok (),
    transcribe := fun _ _ _ => .ok ⟨[⟨0, 1, " hi "⟩], some "en"⟩,
    timestamp := "20260101_000000" }

/-! ### Claim theorems -/

/-- Claim C1, amended: format normalization accepts a comma-separated string or
an already-split sequence, every kept token is the stripped form of an input
token and belongs to the known set; membership is case-sensitive, so
normalizing "SRT, bogus ,txt" yields only ["txt"] (the upper-case "SRT" is
dropped along with "bogus"), and "bogus,other" normalizes to empty, making the
orchestrator raise NoValidFormatsError. -/
theorem normalizeFormats_spec :
    (∀ fa x, x ∈ normalizeFormats fa →
      x ∈ SUPPORTED_FORMATS ∧ ∃ f ∈ formatTokens fa, x = pyStrip f) ∧
    normalizeFormats (.str "SRT, bogus ,txt") = ["txt"] ∧
    normalizeFormats (.str "bogus,other") = [] ∧
    (∀ env p m l t d, env.ffmpegAvailable = true →
      transcribe_audio_core env p m l t (some (.str "bogus,other")) d =
        .error .noValidFormats) := by
  refine ⟨?_, by decide, by decide, ?_⟩
  · intro fa x hx
    simp only [normalizeFormats, List.mem_map, List.mem_filter, decide_eq_true_eq] at hx
    obtain ⟨f, ⟨hf, hfS⟩, hxf⟩ := hx
    exact ⟨hxf ▸ hfS, f, hf, hxf.symm⟩
  · intro env p m l t d hff
    have hra : resolvedFormatsArg env (some (.str "bogus,other")) = .str "bogus,other" := by
      simp [resolvedFormatsArg]
    have hn : normalizeFormats (resolvedFormatsArg env (some (.str "bogus,other"))) = [] := by
      rw [hra]
      decide
    simp [transcribe_audio_core, hff, hn]

/-- Claim C1 counterexample: the claim's example "SRT, bogus ,txt" does not
normalize to srt and txt — the filter is case-sensitive, so only "txt"
survives. -/
theorem normalizeFormats_counterexample :
    normalizeFormats (.str "SRT, bogus ,txt") = ["txt"] ∧
    "srt" ∉ normalizeFormats (.str "SRT, bogus ,txt") := by
  decide

/-- Witness for claim C1: instantiating the amended theorem at the example
input shows the kept token "txt" is a member of the known format set. -/
theorem normalizeFormats_spec_witness : "txt" ∈ SUPPORTED_FORMATS :=
  (normalizeFormats_spec.1 (.str "SRT, bogus ,txt") "txt" (by decide)).1

/-- Claim C2, amended: the device selector never raises and resolves as
follows — preference cuda yields cuda when available and cpu otherwise;
preference cpu always yields cpu; preference auto (or an absent or empty
preference) yields cuda when available and cpu otherwise; any other
unrecognized token yields cpu regardless of availability; matching is
case-insensitive. -/
theorem get_device_spec (p : String) (cuda : Bool) :
    (pyLower p = "cuda" → get_device (some p) cuda = if cuda then "cuda" else "cpu") ∧
    (pyLower p = "cpu" → get_device (some p) cuda = "cpu") ∧
    (p = "" ∨ pyLower p = "auto" → get_device (some p) cuda = if cuda then "cuda" else "cpu") ∧
    get_device none cuda = (if cuda then "cuda" else "cpu") ∧
    (p ≠ "" → pyLower p ≠ "auto" → pyLower p ≠ "cuda" → pyLower p ≠ "cpu" →
      get_device (some p) cuda = "cpu") := by
  refine ⟨fun h => ?_, fun h => ?_, fun h => ?_, rfl, fun h1 h2 h3 h4 => ?_⟩
  · have hp : p ≠ "" := by
      intro he
      rw [he] at h
      exact absurd h (by decide)
    cases cuda <;> simp [get_device, hp, h]
  · have hp : p ≠ "" := by
      intro he
      rw [he] at h
      exact absurd h (by decide)
    cases cuda <;> simp [get_device, hp, h]
  · rcases h with h | h
    · simp [get_device, h]
    · simp [get_device, h]
  · simp [get_device, h1, h2, h3, h4]

/-- Claim C2 counterexample: an unrecognized preference with CUDA available
resolves to cpu, not to the accelerated device as the claim's decision table
states. -/
theorem get_device_counterexample :
    get_device (some "gpu") true = "cpu" ∧ get_device (some "gpu") true ≠ "cuda" := by
  decide

/-- Witness for claim C2: the amended theorem applied at preference "CUDA"
(case-insensitivity) with CUDA available, and at the unrecognized token "gpu2"
with CUDA available. -/
theorem get_device_spec_witness :
    get_device (some "CUDA") true = "cuda" ∧ get_device (some "gpu2") true = "cpu" := by
  constructor
  · exact ((get_device_spec "CUDA" true).1 (by decide)).trans rfl
  · exact (get_device_spec "gpu2" true).2.2.2.2 (by decide) (by decide) (by decide) (by decide)

/-- Claim C3, amended: the orchestrator checks the FFmpeg dependency first,
then normalizes formats, then checks audio existence — so when FFmpeg is
unavailable the call fails with DependencyUnavailableError whatever the other
inputs; NoValidFormatsError is raised when FFmpeg is available and the formats
normalize to empty; AudioNotFoundError is raised when FFmpeg is available, the
formats normalize to a non-empty list and the path does not exist. -/
theorem validation_order_spec (env : Env) (audio_path : String)
    (m l t : Option String) (formats : Option FormatsArg) (d : Option String) :
    (env.ffmpegAvailable = false →
      transcribe_audio_core env audio_path m l t formats d =
        .error (.dependencyUnavailable (ffmpegErrorMsg env.platform))) ∧
    (env.ffmpegAvailable = true →
      normalizeFormats (resolvedFormatsArg env formats) = [] →
      transcribe_audio_core env audio_path m l t formats d = .error .noValidFormats) ∧
    (env.ffmpegAvailable = true →
      normalizeFormats (resolvedFormatsArg env formats) ≠ [] →
      env.pathExists audio_path = false →
      transcribe_audio_core env audio_path m l t formats d =
        .error (.audioNotFound audio_path)) := by
  refine ⟨fun h => ?_, fun h1 h2 => ?_, fun h1 h2 h3 => ?_⟩
  · simp [transcribe_audio_core, h]
  · simp [transcribe_audio_core, h1, h2]
  · simp [transcribe_audio_core, h1, h2, h3]

/-- Claim C3 counterexample: with the decoding dependency unavailable and a
format list that normalizes to empty, the call raises the dependency error,
not NoValidFormatsError — the dependency check runs first, not third. -/
theorem validation_order_counterexample :
    transcribe_audio_core envNoFfmpeg "missing.mp3" none none none (some (.str "bogus")) none =
      .error (.dependencyUnavailable (ffmpegErrorMsg "Linux")) ∧
    transcribe_audio_core envNoFfmpeg "missing.mp3" none none none (some (.str "bogus")) none ≠
      .error .noValidFormats := by
  constructor
  · rfl
  · intro hc
    exact CoreError.noConfusion (Except.error.inj hc)

/-- Witness for claim C3: the amended theorem applied to an environment where
FFmpeg is present and the audio path does not exist yields AudioNotFoundError. -/
theorem validation_order_spec_witness :
    transcribe_audio_core envNoFile "nope.mp3" none none none (some (.str "txt")) none =
      .error (.audioNotFound "nope.mp3") :=
  (validation_order_spec envNoFile "nope.mp3" none none none (some (.str "txt")) none).2.2
    rfl (by decide) rfl

/-- Claim C4, amended: the SRT, TSV, TXT and VTT writers trim leading and
trailing whitespace from each segment's text before emission (their output is
invariant under pre-stripping the texts); the JSON writer serializes the
segments as-is and emits the text value untrimmed. -/
theorem writers_trim_spec (segments : List Segment) :
    save_srt_string (segments.map stripSeg) = save_srt_string segments ∧
    save_tsv_string (segments.map stripSeg) = save_tsv_string segments ∧
    save_txt_string (segments.map stripSeg) = save_txt_string segments ∧
    save_vtt_string (segments.map stripSeg) = save_vtt_string segments ∧
    save_json_string [⟨0, 1, " hi "⟩] =
      "[\n  \x7b\n    \"start\": 0.0,\n    \"end\": 1.0,\n    \"text\": \" hi \"\n  \x7d\n]" := by
  refine ⟨srtBlocks_map_strip segments 1, ?_, txt_map_strip segments, ?_, save_json_string_hi⟩
  · show "start\tend\tspeaker\ttext\n" ++ tsvRows (segments.map stripSeg) = _
    rw [tsvRows_map_strip]
    rfl
  · show "WEBVTT\n\n" ++ vttBlocks (segments.map stripSeg) = _
    rw [vttBlocks_map_strip]
    rfl

/-- Claim C4 counterexample: the JSON writer does not trim — its output on a
segment with text " hi " differs from its output on the stripped segment, and
the untrimmed value " hi " appears verbatim in the serialized file. -/
theorem writers_trim_counterexample :
    save_json_string [⟨0, 1, " hi "⟩] ≠ save_json_string ([⟨0, 1, " hi "⟩].map stripSeg) ∧
    pyContains (save_json_string [⟨0, 1, " hi "⟩]) "\" hi \"" = true := by
  rw [save_json_string_hi, save_json_string_hi_stripped]
  decide

/-- Claim C5: for every non-negative seconds value, format_timestamp produces
HH:MM:SS separator mmm where hours, minutes, seconds and milliseconds are the
floor expressions of the specification (milliseconds truncated, not rounded),
the first three fields zero-padded to width 2, milliseconds to width 3, and
the subtitle and web-subtitle variants differ only in the separator character
(comma versus period). -/
theorem format_timestamp_spec (s : ℚ) (h : 0 ≤ s) :
    format_timestamp s false =
      pyPadInt 2 ⌊s / 3600⌋ ++ ":" ++
        pyPadInt 2 ⌊(s - 3600 * (⌊s / 3600⌋ : ℚ)) / 60⌋ ++ ":" ++
        pyPadInt 2 ⌊s - 60 * (⌊s / 60⌋ : ℚ)⌋ ++ "," ++
        pyPadInt 3 ⌊(s - (⌊s⌋ : ℚ)) * 1000⌋ ∧
    format_timestamp s true =
      pyPadInt 2 ⌊s / 3600⌋ ++ ":" ++
        pyPadInt 2 ⌊(s - 3600 * (⌊s / 3600⌋ : ℚ)) / 60⌋ ++ ":" ++
        pyPadInt 2 ⌊s - 60 * (⌊s / 60⌋ : ℚ)⌋ ++ "." ++
        pyPadInt 3 ⌊(s - (⌊s⌋ : ℚ)) * 1000⌋ :=
  format_timestamp_eq s h

/-- Witness for claim C5: at 3661.2005 seconds the comma variant renders the
claim's example string 01:01:01,200. -/
theorem format_timestamp_spec_witness :
    0 ≤ (36612005 / 10000 : ℚ) ∧
    format_timestamp (36612005 / 10000 : ℚ) false = "01:01:01,200" := by
  have h : (0 : ℚ) ≤ 36612005 / 10000 := by norm_num
  refine ⟨h, ?_⟩
  rw [(format_timestamp_spec (36612005 / 10000 : ℚ) h).1]
  norm_num
  decide

/-- Claim C6: the SRT writer emits, for each segment in order, a 1-based index
line, a start --> end line in the comma-variant timestamp, the trimmed text and
a blank line; on the single segment (start 0, end 1.5, text " hi ") it writes
exactly "1\n00:00:00,000 --> 00:00:01,500\nhi\n\n". -/
theorem save_srt_spec :
    (∀ i seg rest, srtBlocks i (seg :: rest) =
      toString i ++ "\n" ++ format_timestamp seg.start false ++ " --> " ++
        format_timestamp seg.stop false ++ "\n" ++ pyStrip seg.text ++ "\n\n" ++
        srtBlocks (i + 1) rest) ∧
    save_srt_string [⟨0, 3 / 2, " hi "⟩] = "1\n00:00:00,000 --> 00:00:01,500\nhi\n\n" := by
  refine ⟨fun i seg rest => rfl, ?_⟩
  have h : save_srt_string [⟨0, 3 / 2, " hi "⟩] =
      toString 1 ++ "\n" ++ format_timestamp 0 false ++ " --> " ++
        format_timestamp (3 / 2 : ℚ) false ++ "\n" ++ pyStrip " hi " ++ "\n\n" ++ "" := rfl
  rw [h, format_timestamp_zero, format_timestamp_three_halves]
  decide

/-- Claim C7: if model loading fails on the accelerated device (cuda), the
orchestrator retries exactly once on the fallback device (cpu) and propagates
the error only when that retry also fails; a load failure on the fallback
device propagates immediately without retry. -/
theorem load_fallback_spec (load : String → Except String Unit) (e e2 : String) :
    (load "cuda" = .error e → load "cpu" = .ok () →
      loadWithFallback load "cuda" = .ok "cpu") ∧
    (load "cuda" = .error e → load "cpu" = .error e2 →
      loadWithFallback load "cuda" = .error e2) ∧
    (load "cpu" = .error e → loadWithFallback load "cpu" = .error e) := by
  refine ⟨fun h1 h2 => ?_, fun h1 h2 => ?_, fun h => ?_⟩
  · simp [loadWithFallback, h1, h2]
  · simp [loadWithFallback, h1, h2]
  · simp [loadWithFallback, h]

/-- Witness for claim C7: a loader that fails on cuda but succeeds on cpu ends
on cpu, and a loader that fails on cpu propagates its error unchanged. -/
theorem load_fallback_spec_witness :
    loadWithFallback (fun d => if d = "cuda" then .error "boom" else .ok ()) "cuda" = .ok "cpu" ∧
    loadWithFallback (fun _ => .error "down") "cpu" = .error "down" := by
  constructor
  · exact (load_fallback_spec (fun d => if d = "cuda" then .error "boom" else .ok ())
      "boom" "x").1 rfl rfl
  · exact (load_fallback_spec (fun _ => .error "down") "down" "x").2.2 rfl

/-- Claim C8: whenever the orchestrator succeeds, the returned JobResult has
output_dir outputs/timestamp, a files list with exactly one path per
normalized requested format in request order, each of the form
output_dir/audio-base-name.format, and a segments field echoing the model's
segment list unchanged. -/
theorem job_result_spec (env : Env) (audio_path : String)
    (model_name language task : Option String) (formats : Option FormatsArg)
    (device : Option String) (r : JobResult)
    (h : transcribe_audio_core env audio_path model_name language task formats device =
      .ok r) :
    r.output_dir = "outputs/" ++ env.timestamp ∧
    r.files = (normalizeFormats (resolvedFormatsArg env formats)).map
      (fun fmt => r.output_dir ++ "/" ++ splitextStem (basename audio_path) ++ "." ++ fmt) ∧
    ∃ tr, env.transcribe audio_path (resolvedLanguage env language)
        (pyOrStr task ((env.getenv "WHISPER_TASK").getD "transcribe")) = .ok tr ∧
      r.segments = tr.segments := by
  simp only [transcribe_audio_core] at h
  split at h
  · exact Except.noConfusion h
  · split at h
    · exact Except.noConfusion h
    · split at h
      · exact Except.noConfusion h
      · split at h
        · exact Except.noConfusion h
        · split at h
          · split at h <;> exact Except.noConfusion h
          · rename_i tr heq
            rw [← Except.ok.inj h]
            exact ⟨rfl, rfl, tr, heq, rfl⟩

/-- Witness for claim C8: a concrete successful run with formats "txt,json"
returns two paths in request order, built from the output directory and the
audio base name, with the segments echoed. -/
theorem job_result_spec_witness :
    transcribe_audio_core envOk "audio.mp3" none none none (some (.str "txt,json")) none =
      .ok { output_dir := "outputs/20260101_000000",
            files := ["outputs/20260101_000000/audio.txt",
                      "outputs/20260101_000000/audio.json"],
            segments := [⟨0, 1, " hi "⟩], language := some "en",
            model := "small.en", device := "cpu" } ∧
    ["outputs/20260101_000000/audio.txt", "outputs/20260101_000000/audio.json"] =
      (normalizeFormats (resolvedFormatsArg envOk (some (.str "txt,json")))).map
        (fun fmt => "outputs/20260101_000000" ++ "/" ++ splitextStem (basename "audio.mp3") ++
          "." ++ fmt) := by
  refine ⟨rfl, ?_⟩
  have h := (job_result_spec envOk "audio.mp3" none none none (some (.str "txt,json")) none
    { output_dir := "outputs/20260101_000000",
      files := ["outputs/20260101_000000/audio.txt", "outputs/20260101_000000/audio.json"],
      segments := [⟨0, 1, " hi "⟩], language := some "en",
      model := "small.en", device := "cpu" } rfl).2.1
  exact h

/-- Claim C9: the JSON writer is a deterministic function of its segment input;
writing twice to the same path leaves the file byte-identical to what one write
produces, namely the serialization of the segments. -/
theorem save_json_idempotent (segments : List Segment) (out_path : String) (fs : FS) :
    save_json segments out_path (save_json segments out_path fs) out_path =
      save_json segments out_path fs out_path ∧
    save_json segments out_path fs out_path = some (save_json_string segments) := by
  constructor <;> simp [save_json]

/-- Claim C10, amended: an empty formats list (or empty string) is falsy and is
replaced by the default from WHISPER_FORMATS (defaulting to "txt") before
normalization, so the call behaves exactly as if formats were absent; with the
variable unset the txt default normalizes non-empty and the call cannot raise
NoValidFormatsError, but when the environment default itself contains no valid
token the empty-list call does raise it. -/
theorem empty_formats_default_spec (env : Env) (p : String) (m l t d : Option String) :
    transcribe_audio_core env p m l t (some (.list [])) d =
      transcribe_audio_core env p m l t none d ∧
    transcribe_audio_core env p m l t (some (.str "")) d =
      transcribe_audio_core env p m l t none d ∧
    (env.getenv "WHISPER_FORMATS" = none →
      transcribe_audio_core env p m l t (some (.list [])) d ≠ .error .noValidFormats) := by
  refine ⟨rfl, rfl, fun hg hc => ?_⟩
  have hd : normalizeFormats (resolvedFormatsArg env (some (.list []))) = ["txt"] := by
    show normalizeFormats (envFormatsDefault env) = ["txt"]
    rw [envFormatsDefault, hg]
    decide
  simp only [transcribe_audio_core, hd] at hc
  split at hc
  · exact CoreError.noConfusion (Except.error.inj hc)
  · rw [if_neg (by decide : ¬ (["txt"] : List String) = [])] at hc
    split at hc
    · exact CoreError.noConfusion (Except.error.inj hc)
    · split at hc
      · exact CoreError.noConfusion (Except.error.inj hc)
      · split at hc
        · split at hc
          · exact CoreError.noConfusion (Except.error.inj hc)
          · exact CoreError.noConfusion (Except.error.inj hc)
        · exact Except.noConfusion hc

/-- Claim C10 counterexample: with WHISPER_FORMATS set to "bogus", passing an
empty formats list does raise NoValidFormatsError, contradicting the claim
that the empty-list call never does. -/
theorem empty_formats_default_counterexample :
    transcribe_audio_core envBadDefault "a.mp3" none none none (some (.list [])) none =
      .error .noValidFormats := by
  rfl

/-- Witness for claim C10: with no environment variables set, the empty-list
call cannot raise NoValidFormatsError. -/
theorem empty_formats_default_spec_witness :
    transcribe_audio_core envOk "a.mp3" none none none (some (.list [])) none ≠
      .error .noValidFormats :=
  (empty_formats_default_spec envOk "a.mp3" none none none none).2.2 rfl
